import Mathlib

/-!
Verification of the fake-quantization core for the per-tensor affine
quantization scheme
(`aten/src/ATen/native/quantized/cpu/fake_quantize_per_tensor_affine.cpp`).

Tensors are modelled as flat lists of exact rationals tagged with an element
dtype; the forward and backward entry points are embedded as `Except`-valued
functions mirroring the C++ control flow (sanity checks, delay gate,
elementwise kernels).  The arithmetic of the kernels (`* / + floor clamp`)
is exact on the inputs considered, so rationals model the floating-point
evaluation faithfully wherever the theorems below quantify; theorems add the
spec's `0 < scale` assumption where the C++ would otherwise divide by zero.
Non-finite upstream gradients (for the mask-times-gradient semantics of the
backward kernel) are modelled separately by `FpVal`.
-/

namespace FakeQuant

/-- Error taxonomy of the two entry points.  `dtypeNotFloat` models the
`TORCH_CHECK(self.scalar_type() == ScalarType::Float)` failure; the others
model the `std::invalid_argument` / `std::length_error` throws, one per
check site. -/
inductive Err
  | dtypeNotFloat
  | invalidRange
  | invalidZeroPoint
  | invalidDelay
  | invalidIteration
  | emptyInput
  | sizeMismatch
  deriving DecidableEq

/-- Element dtypes relevant here: the forward path accepts only `Float`
(32-bit); `Double` is the wider type of the scalar arithmetic; `other`
stands for any further ScalarType. -/
inductive ScalarType
  | Float
  | Double
  | other
  deriving DecidableEq

/-- A tensor, reduced to what the excerpt observes: its element dtype and its
flat element values (`numel` is the length of `data`). -/
structure Tensor where
  dtype : ScalarType
  data : List ℚ
  deriving DecidableEq

/-- The element count `X.numel()` of the C++ tensor. -/
def Tensor.numel (t : Tensor) : ℤ :=
  (t.data.length : ℤ)

/-- Modelled from the spec: the element dtype of the tensor produced by the
elementwise arithmetic `(((self * inv_scale + 0.5f).floor() + zero_point)
.clamp_min(..).clamp_max(..) - zero_point) * scale`.  The type-promotion
rules of the tensor library that evaluate this expression are outside the
excerpt; the spec states the output dtype is the wider floating-point type
used for the intermediate arithmetic, i.e. `Double` (the `scale` scalar is a
float64). -/
def arithResultDtype : ScalarType :=
  ScalarType.Double

/-- Elementwise forward kernel, from
`Y = (((self * inv_scale + 0.5f).floor() + zero_point)
       .clamp_min(quant_min).clamp_max(quant_max) - zero_point) * scale`
with `inv_scale = 1.0f / scale`.  `clamp_min` is `max`, `clamp_max` is
`min`, applied in that order. -/
def quantize (scale : ℚ) (zero_point quant_min quant_max : ℤ) (x : ℚ) : ℚ :=
  let inv_scale : ℚ := 1 / scale
  ((min (max (⌊x * inv_scale + 1/2⌋ + zero_point) quant_min) quant_max : ℤ) - zero_point) * scale

/-- `fake_quantize_per_tensor_affine_cpu`: sanity checks, delay gate,
then the elementwise quantize-dequantize transform. -/
def fake_quantize_per_tensor_affine_cpu (self : Tensor) (scale : ℚ)
    (zero_point quant_min quant_max quant_delay iter : ℤ) : Except Err Tensor :=
  if self.dtype ≠ ScalarType.Float then
    Except.error Err.dtypeNotFloat
  else if quant_min > quant_max then
    Except.error Err.invalidRange
  else if zero_point < 0 then
    Except.error Err.invalidZeroPoint
  else if quant_delay < 0 then
    Except.error Err.invalidDelay
  else if quant_delay ≠ 0 ∧ iter < 0 then
    Except.error Err.invalidIteration
  else if quant_delay > 0 ∧ iter ≤ quant_delay then
    -- Y = at::empty_like(self); Y.copy_(self)
    Except.ok ⟨self.dtype, self.data⟩
  else
    Except.ok ⟨arithResultDtype, self.data.map (quantize scale zero_point quant_min quant_max)⟩

/-- Pre-clamp quantized value of the backward path:
`Xq = (X * inv_scale + 0.5).floor() + zero_point`. -/
def preClamp (scale : ℚ) (zero_point : ℤ) (x : ℚ) : ℤ :=
  ⌊x * (1 / scale) + 1/2⌋ + zero_point

/-- Elementwise gradient mask: `mask = (Xq >= quant_min) * (Xq <= quant_max)`
(byte-tensor product of the two comparison masks, i.e. logical and). -/
def gradMask (scale : ℚ) (zero_point quant_min quant_max : ℤ) (x : ℚ) : Bool :=
  decide (quant_min ≤ preClamp scale zero_point x) && decide (preClamp scale zero_point x ≤ quant_max)

/-- Elementwise backward kernel on finite values:
`dX = mask.type_as(dY) * dY`, the mask cast to `0`/`1` and multiplied. -/
def backwardStep (scale : ℚ) (zero_point quant_min quant_max : ℤ) (x dy : ℚ) : ℚ :=
  (if gradMask scale zero_point quant_min quant_max x then (1 : ℚ) else 0) * dy

/-- `fake_quantize_per_tensor_affine_backward_cpu`: sanity checks (including
emptiness and size agreement of `X` and `dY`), delay gate, then the
elementwise straight-through gradient mask. -/
def fake_quantize_per_tensor_affine_backward_cpu (dY X : Tensor) (scale : ℚ)
    (zero_point quant_min quant_max quant_delay iter : ℤ) : Except Err Tensor :=
  if quant_min > quant_max then
    Except.error Err.invalidRange
  else if zero_point < 0 then
    Except.error Err.invalidZeroPoint
  else if quant_delay < 0 then
    Except.error Err.invalidDelay
  else if X.numel ≤ 0 then
    Except.error Err.emptyInput
  else if X.numel ≠ dY.numel then
    Except.error Err.sizeMismatch
  else if quant_delay ≠ 0 ∧ iter < 0 then
    Except.error Err.invalidIteration
  else if quant_delay > 0 ∧ iter ≤ quant_delay then
    -- dX = at::zeros_like(dY); dX.copy_(dY)
    Except.ok ⟨dY.dtype, dY.data⟩
  else
    Except.ok ⟨dY.dtype, List.zipWith (backwardStep scale zero_point quant_min quant_max) X.data dY.data⟩

/-- An IEEE-754 floating-point value as observed by the backward kernel:
a finite value (kept exact), an infinity, or a NaN.  Only upstream
gradients `dY` need the non-finite cases; the mask factors are exactly
`0` and `1`. -/
inductive FpVal
  | fin (q : ℚ)
  | pinf
  | ninf
  | nan
  deriving DecidableEq

/-- IEEE-754 multiplication on extended values: any NaN operand gives NaN,
`0 * ±inf` gives NaN, nonzero finite times infinity gives a signed
infinity, and finite products are exact (overflow to infinity cannot occur
for the `0`/`1` mask factors this file multiplies with). -/
def fpMul : FpVal → FpVal → FpVal
  | FpVal.nan, _ => FpVal.nan
  | _, FpVal.nan => FpVal.nan
  | FpVal.fin a, FpVal.fin b => FpVal.fin (a * b)
  | FpVal.fin a, FpVal.pinf =>
      if a = 0 then FpVal.nan else if 0 < a then FpVal.pinf else FpVal.ninf
  | FpVal.fin a, FpVal.ninf =>
      if a = 0 then FpVal.nan else if 0 < a then FpVal.ninf else FpVal.pinf
  | FpVal.pinf, FpVal.fin b =>
      if b = 0 then FpVal.nan else if 0 < b then FpVal.pinf else FpVal.ninf
  | FpVal.ninf, FpVal.fin b =>
      if b = 0 then FpVal.nan else if 0 < b then FpVal.ninf else FpVal.pinf
  | FpVal.pinf, FpVal.pinf => FpVal.pinf
  | FpVal.pinf, FpVal.ninf => FpVal.ninf
  | FpVal.ninf, FpVal.pinf => FpVal.ninf
  | FpVal.ninf, FpVal.ninf => FpVal.pinf

/-- The active backward path's elementwise step `mask.type_as(dY) * dY`
with the upstream gradient allowed to be non-finite: the `0`/`1` mask value
is multiplied with `dy` under IEEE-754 semantics. -/
def backwardStepE (scale : ℚ) (zero_point quant_min quant_max : ℤ)
    (x : ℚ) (dy : FpVal) : FpVal :=
  fpMul (if gradMask scale zero_point quant_min quant_max x then FpVal.fin 1 else FpVal.fin 0) dy

/-- The selection formula `dX[i] = mask[i] ? dY[i] : 0` that the spec's
backward contract states, for comparison with the multiplicative kernel the
code uses. -/
def backwardStepSelect (scale : ℚ) (zero_point quant_min quant_max : ℤ)
    (x : ℚ) (dy : FpVal) : FpVal :=
  if gradMask scale zero_point quant_min quant_max x then dy else FpVal.fin 0

/-! ### Path characterizations -/

/-- With valid parameters and the delay gate active (`quant_delay == 0` or
`iter > quant_delay`), the forward entry point reaches the elementwise
kernel. -/
theorem forward_active (xs : List ℚ) (s : ℚ) (zp qmin qmax qd it : ℤ)
    (h1 : qmin ≤ qmax) (h2 : 0 ≤ zp) (h3 : 0 ≤ qd) (h4 : qd = 0 ∨ qd < it) :
    fake_quantize_per_tensor_affine_cpu ⟨ScalarType.Float, xs⟩ s zp qmin qmax qd it =
      Except.ok ⟨ScalarType.Double, xs.map (quantize s zp qmin qmax)⟩ := by
  simp only [fake_quantize_per_tensor_affine_cpu]
  rw [if_neg (by simp), if_neg (by omega), if_neg (by omega), if_neg (by omega),
    if_neg (by omega), if_neg (by omega)]
  rfl

/-- With valid parameters and the delay gate suppressed
(`quant_delay > 0` and `0 ≤ iter ≤ quant_delay`), the forward entry point
copies its input. -/
theorem forward_suppressed (xs : List ℚ) (s : ℚ) (zp qmin qmax qd it : ℤ)
    (h1 : qmin ≤ qmax) (h2 : 0 ≤ zp) (h3 : 0 < qd) (h4 : 0 ≤ it) (h5 : it ≤ qd) :
    fake_quantize_per_tensor_affine_cpu ⟨ScalarType.Float, xs⟩ s zp qmin qmax qd it =
      Except.ok ⟨ScalarType.Float, xs⟩ := by
  simp only [fake_quantize_per_tensor_affine_cpu]
  rw [if_neg (by simp), if_neg (by omega), if_neg (by omega), if_neg (by omega),
    if_neg (by omega), if_pos (by omega)]

/-- With valid parameters, matching nonempty arrays and the delay gate
active, the backward entry point reaches the elementwise mask kernel. -/
theorem backward_active (dtY dtX : ScalarType) (dys xs : List ℚ) (s : ℚ)
    (zp qmin qmax qd it : ℤ)
    (hne : xs ≠ []) (hlen : xs.length = dys.length)
    (h1 : qmin ≤ qmax) (h2 : 0 ≤ zp) (h3 : 0 ≤ qd) (h4 : qd = 0 ∨ qd < it) :
    fake_quantize_per_tensor_affine_backward_cpu ⟨dtY, dys⟩ ⟨dtX, xs⟩ s zp qmin qmax qd it =
      Except.ok ⟨dtY, List.zipWith (backwardStep s zp qmin qmax) xs dys⟩ := by
  have hl : 0 < xs.length := List.length_pos.mpr hne
  simp only [fake_quantize_per_tensor_affine_backward_cpu, Tensor.numel]
  rw [if_neg (by omega), if_neg (by omega), if_neg (by omega), if_neg (by omega),
    if_neg (by omega), if_neg (by omega), if_neg (by omega)]

/-- With valid parameters, matching nonempty arrays and the delay gate
suppressed, the backward entry point copies the upstream gradient. -/
theorem backward_suppressed (dtY dtX : ScalarType) (dys xs : List ℚ) (s : ℚ)
    (zp qmin qmax qd it : ℤ)
    (hne : xs ≠ []) (hlen : xs.length = dys.length)
    (h1 : qmin ≤ qmax) (h2 : 0 ≤ zp) (h3 : 0 < qd) (h4 : 0 ≤ it) (h5 : it ≤ qd) :
    fake_quantize_per_tensor_affine_backward_cpu ⟨dtY, dys⟩ ⟨dtX, xs⟩ s zp qmin qmax qd it =
      Except.ok ⟨dtY, dys⟩ := by
  have hl : 0 < xs.length := List.length_pos.mpr hne
  simp only [fake_quantize_per_tensor_affine_backward_cpu, Tensor.numel]
  rw [if_neg (by omega), if_neg (by omega), if_neg (by omega), if_neg (by omega),
    if_neg (by omega), if_neg (by omega), if_pos (by omega)]

/-! ### Kernel lemmas -/

/-- The code's `clamp_min(quant_min).clamp_max(quant_max)` agrees with the
spec's `clamp(v, quant_min, quant_max)` whenever `quant_min ≤ quant_max`. -/
theorem quantize_eq_clamp_spec (s : ℚ) (zp qmin qmax : ℤ) (h : qmin ≤ qmax) (x : ℚ) :
    quantize s zp qmin qmax x =
      ((max qmin (min (⌊x * (1 / s) + 1/2⌋ + zp) qmax) : ℤ) - zp) * s := by
  have hmm : min (max (⌊x * (1 / s) + 1/2⌋ + zp) qmin) qmax =
      max qmin (min (⌊x * (1 / s) + 1/2⌋ + zp) qmax) := by omega
  simp only [quantize, hmm]

/-- Feeding a dequantized value `(c - zp) * s` back through
`x ↦ ⌊x * (1/s) + 1/2⌋` recovers `c - zp` exactly. -/
theorem floor_requantize (s : ℚ) (hs : s ≠ 0) (c zp : ℤ) :
    ⌊((c : ℚ) - (zp : ℚ)) * s * (1 / s) + 1/2⌋ = c - zp := by
  have h1 : ((c : ℚ) - (zp : ℚ)) * s * (1 / s) = ((c - zp : ℤ) : ℚ) := by
    push_cast
    field_simp
  rw [h1, Int.floor_int_add]
  norm_num

/-- The elementwise forward kernel is a projection: `q(q(x)) = q(x)`. -/
theorem quantize_idem (s : ℚ) (hs : s ≠ 0) (zp qmin qmax : ℤ) (h : qmin ≤ qmax) (x : ℚ) :
    quantize s zp qmin qmax (quantize s zp qmin qmax x) = quantize s zp qmin qmax x := by
  simp only [quantize]
  rw [floor_requantize s hs (min (max (⌊x * (1 / s) + 1/2⌋ + zp) qmin) qmax) zp]
  have h2 : min (max (min (max (⌊x * (1 / s) + 1/2⌋ + zp) qmin) qmax - zp + zp) qmin) qmax =
      min (max (⌊x * (1 / s) + 1/2⌋ + zp) qmin) qmax := by omega
  rw [h2]

/-! ### Claims -/

/-- C1: with parameters passing validation (the spec's positive `scale`
included) and the delay gate active, the forward operation returns an array
of the same length whose entry at each index is
`(clamp(floor(x * (1/scale) + 0.5) + zero_point, quant_min, quant_max)
  - zero_point) * scale`, with round-half-up rounding and the clamp applied
to the shifted value before `zero_point` is subtracted back out. -/
theorem forward_active_formula (xs : List ℚ) (s : ℚ) (zp qmin qmax qd it : ℤ)
    (_hs : 0 < s) (h1 : qmin ≤ qmax) (h2 : 0 ≤ zp) (h3 : 0 ≤ qd)
    (h4 : qd = 0 ∨ qd < it) :
    Except.map Tensor.data
        (fake_quantize_per_tensor_affine_cpu ⟨ScalarType.Float, xs⟩ s zp qmin qmax qd it) =
      Except.ok (xs.map fun x =>
        ((max qmin (min (⌊x * (1 / s) + 1/2⌋ + zp) qmax) : ℤ) - zp) * s) := by
  rw [forward_active xs s zp qmin qmax qd it h1 h2 h3 h4]
  simp only [Except.map]
  rw [List.map_congr_left fun x _ => quantize_eq_clamp_spec s zp qmin qmax h1 x]

/-- Witness for C1 at `X = [1/2]`, `scale = 2`, `zero_point = 1`,
range `[0, 10]`, no delay. -/
theorem forward_active_formula_witness :
    Except.map Tensor.data
        (fake_quantize_per_tensor_affine_cpu ⟨ScalarType.Float, [1/2]⟩ 2 1 0 10 0 0) =
      Except.ok [0] := by
  rw [forward_active_formula [1/2] 2 1 0 10 0 0 (by norm_num) (by decide) (by decide)
    (by decide) (Or.inl rfl)]
  norm_num [Int.floor_eq_iff]

/-- C2: with equal-length arrays, `X` nonempty, parameters passing
validation and the delay gate active, the backward operation returns `dX`
of the same length with `dX[i] = dY[i]` when the unclamped
`Xq[i] = floor(X[i] * (1/scale) + 0.5) + zero_point` lies in
`[quant_min, quant_max]` (both bounds inclusive) and `dX[i] = 0`
otherwise. -/
theorem backward_active_mask_formula (dtY dtX : ScalarType) (dys xs : List ℚ)
    (s : ℚ) (zp qmin qmax qd it : ℤ)
    (hne : xs ≠ []) (hlen : xs.length = dys.length) (_hs : 0 < s)
    (h1 : qmin ≤ qmax) (h2 : 0 ≤ zp) (h3 : 0 ≤ qd) (h4 : qd = 0 ∨ qd < it) :
    Except.map Tensor.data
        (fake_quantize_per_tensor_affine_backward_cpu ⟨dtY, dys⟩ ⟨dtX, xs⟩ s zp qmin qmax qd it) =
      Except.ok (List.zipWith (fun x dy =>
          if qmin ≤ ⌊x * (1 / s) + 1/2⌋ + zp ∧ ⌊x * (1 / s) + 1/2⌋ + zp ≤ qmax
          then dy else 0)
        xs dys) := by
  rw [backward_active dtY dtX dys xs s zp qmin qmax qd it hne hlen h1 h2 h3 h4]
  simp only [Except.map]
  have hfun : backwardStep s zp qmin qmax = fun x dy =>
      if qmin ≤ ⌊x * (1 / s) + 1/2⌋ + zp ∧ ⌊x * (1 / s) + 1/2⌋ + zp ≤ qmax
      then dy else (0 : ℚ) := by
    funext x dy
    simp only [backwardStep, gradMask, preClamp, Bool.and_eq_true, decide_eq_true_eq]
    split_ifs
    · rw [one_mul]
    · rw [zero_mul]
  rw [hfun]

/-- Witness for C2 at `X = [1/2]`, `dY = [7]`, `scale = 2`,
`zero_point = 1`, range `[0, 10]`, no delay. -/
theorem backward_active_mask_formula_witness :
    Except.map Tensor.data
        (fake_quantize_per_tensor_affine_backward_cpu ⟨ScalarType.Float, [7]⟩
          ⟨ScalarType.Float, [1/2]⟩ 2 1 0 10 0 0) =
      Except.ok [7] := by
  rw [backward_active_mask_formula ScalarType.Float ScalarType.Float [7] [1/2] 2 1 0 10 0 0
    (by decide) (by decide) (by norm_num) (by decide) (by decide) (by decide) (Or.inl rfl)]
  norm_num [Int.floor_eq_iff]

/-- C3: when `quant_delay > 0` and `0 ≤ iter ≤ quant_delay` (suppressed
delay gate, boundary `iter == quant_delay` included), the forward operation
returns an exact copy of `X` and the backward operation an exact copy of
`dY`, for every `scale` and every `zero_point` passing validation. -/
theorem delay_gate_pass_through (dtY dtX : ScalarType) (dys xs : List ℚ)
    (s : ℚ) (zp qmin qmax qd it : ℤ)
    (h1 : qmin ≤ qmax) (h2 : 0 ≤ zp) (h3 : 0 < qd) (h4 : 0 ≤ it) (h5 : it ≤ qd)
    (hne : xs ≠ []) (hlen : xs.length = dys.length) :
    fake_quantize_per_tensor_affine_cpu ⟨ScalarType.Float, xs⟩ s zp qmin qmax qd it =
        Except.ok ⟨ScalarType.Float, xs⟩ ∧
      fake_quantize_per_tensor_affine_backward_cpu ⟨dtY, dys⟩ ⟨dtX, xs⟩ s zp qmin qmax qd it =
        Except.ok ⟨dtY, dys⟩ :=
  ⟨forward_suppressed xs s zp qmin qmax qd it h1 h2 h3 h4 h5,
   backward_suppressed dtY dtX dys xs s zp qmin qmax qd it hne hlen h1 h2 h3 h4 h5⟩

/-- Witness for C3 at the boundary `iter == quant_delay`, with a `scale`
and `zero_point` that would change the values were the kernel applied. -/
theorem delay_gate_pass_through_witness :
    fake_quantize_per_tensor_affine_cpu ⟨ScalarType.Float, [3]⟩ 2 1 0 10 5 5 =
        Except.ok ⟨ScalarType.Float, [3]⟩ ∧
      fake_quantize_per_tensor_affine_backward_cpu ⟨ScalarType.Float, [7]⟩
          ⟨ScalarType.Float, [3]⟩ 2 1 0 10 5 5 =
        Except.ok ⟨ScalarType.Float, [7]⟩ :=
  delay_gate_pass_through ScalarType.Float ScalarType.Float [7] [3] 2 1 0 10 5 5
    (by decide) (by decide) (by decide) (by decide) (by decide) (by decide) (by decide)

/-- C4 counterexample: with `quant_delay = 5` and `iter = -3` but `X` and
`dY` of different sizes, the backward path reports `SizeMismatch`, not the
`InvalidIteration` the claim requires whenever `quant_delay != 0` and
`iter < 0`. -/
theorem backward_size_beats_iteration :
    fake_quantize_per_tensor_affine_backward_cpu ⟨ScalarType.Float, [1, 2]⟩
        ⟨ScalarType.Float, [1]⟩ 1 0 0 255 5 (-3) =
      Except.error Err.sizeMismatch ∧
    Err.sizeMismatch ≠ Err.invalidIteration :=
  ⟨by rfl, by decide⟩

/-- C4 (amended): each validation failure is reported as the first violated
check in the code's order — forward: range, zero point, delay, iteration;
backward: range, zero point, delay, emptiness, size, iteration — and a
failing call produces an error value, never an output array. -/
theorem validation_error_triggers (dtY dtX : ScalarType) (dys xs : List ℚ)
    (s : ℚ) (zp qmin qmax qd it : ℤ) :
    (qmax < qmin →
        fake_quantize_per_tensor_affine_cpu ⟨ScalarType.Float, xs⟩ s zp qmin qmax qd it =
            Except.error Err.invalidRange ∧
          fake_quantize_per_tensor_affine_backward_cpu ⟨dtY, dys⟩ ⟨dtX, xs⟩ s zp qmin qmax qd it =
            Except.error Err.invalidRange) ∧
    (qmin ≤ qmax → zp < 0 →
        fake_quantize_per_tensor_affine_cpu ⟨ScalarType.Float, xs⟩ s zp qmin qmax qd it =
            Except.error Err.invalidZeroPoint ∧
          fake_quantize_per_tensor_affine_backward_cpu ⟨dtY, dys⟩ ⟨dtX, xs⟩ s zp qmin qmax qd it =
            Except.error Err.invalidZeroPoint) ∧
    (qmin ≤ qmax → 0 ≤ zp → qd < 0 →
        fake_quantize_per_tensor_affine_cpu ⟨ScalarType.Float, xs⟩ s zp qmin qmax qd it =
            Except.error Err.invalidDelay ∧
          fake_quantize_per_tensor_affine_backward_cpu ⟨dtY, dys⟩ ⟨dtX, xs⟩ s zp qmin qmax qd it =
            Except.error Err.invalidDelay) ∧
    (qmin ≤ qmax → 0 ≤ zp → 0 ≤ qd → qd ≠ 0 → it < 0 →
        fake_quantize_per_tensor_affine_cpu ⟨ScalarType.Float, xs⟩ s zp qmin qmax qd it =
          Except.error Err.invalidIteration) ∧
    (qmin ≤ qmax → 0 ≤ zp → 0 ≤ qd → xs ≠ [] → xs.length = dys.length →
      qd ≠ 0 → it < 0 →
        fake_quantize_per_tensor_affine_backward_cpu ⟨dtY, dys⟩ ⟨dtX, xs⟩ s zp qmin qmax qd it =
          Except.error Err.invalidIteration) := by
  refine ⟨fun h => ⟨?_, ?_⟩, fun h h2 => ⟨?_, ?_⟩, fun h h2 h3 => ⟨?_, ?_⟩,
    fun h h2 h3 h4 h5 => ?_, fun h h2 h3 hne hlen h4 h5 => ?_⟩
  · simp only [fake_quantize_per_tensor_affine_cpu]
    rw [if_neg (by simp), if_pos (by omega)]
  · simp only [fake_quantize_per_tensor_affine_backward_cpu]
    rw [if_pos (by omega)]
  · simp only [fake_quantize_per_tensor_affine_cpu]
    rw [if_neg (by simp), if_neg (by omega), if_pos (by omega)]
  · simp only [fake_quantize_per_tensor_affine_backward_cpu]
    rw [if_neg (by omega), if_pos (by omega)]
  · simp only [fake_quantize_per_tensor_affine_cpu]
    rw [if_neg (by simp), if_neg (by omega), if_neg (by omega), if_pos (by omega)]
  · simp only [fake_quantize_per_tensor_affine_backward_cpu]
    rw [if_neg (by omega), if_neg (by omega), if_pos (by omega)]
  · simp only [fake_quantize_per_tensor_affine_cpu]
    rw [if_neg (by simp), if_neg (by omega), if_neg (by omega), if_neg (by omega),
      if_pos (by omega)]
  · have hl : 0 < xs.length := List.length_pos.mpr hne
    simp only [fake_quantize_per_tensor_affine_backward_cpu, Tensor.numel]
    rw [if_neg (by omega), if_neg (by omega), if_neg (by omega), if_neg (by omega),
      if_neg (by omega), if_pos (by omega)]

/-- Witness for the amended C4: an inverted range is reported as
`InvalidRange`, and a negative `iter` with nonzero `quant_delay` on a
well-formed backward call is reported as `InvalidIteration`. -/
theorem validation_error_triggers_witness :
    fake_quantize_per_tensor_affine_cpu ⟨ScalarType.Float, [1]⟩ 1 0 5 3 0 0 =
        Except.error Err.invalidRange ∧
      fake_quantize_per_tensor_affine_backward_cpu ⟨ScalarType.Float, [1]⟩
          ⟨ScalarType.Float, [1]⟩ 1 0 0 255 5 (-3) =
        Except.error Err.invalidIteration :=
  ⟨((validation_error_triggers ScalarType.Float ScalarType.Float [1] [1] 1 0 5 3 0 0).1
      (by decide)).1,
   (validation_error_triggers ScalarType.Float ScalarType.Float [1] [1] 1 0 0 255 5
      (-3)).2.2.2.2 (by decide) (by decide) (by decide) (by decide) (by decide)
      (by decide) (by decide)⟩

/-- C5 counterexample: on the claim's own example — `quant_delay != 0`,
`iter < 0` and an empty `X` — the backward path reports `EmptyInput`, not
the `InvalidIteration` the claimed check order predicts. -/
theorem backward_empty_beats_iteration :
    fake_quantize_per_tensor_affine_backward_cpu ⟨ScalarType.Float, [1]⟩
        ⟨ScalarType.Float, []⟩ 1 0 0 255 1 (-1) =
      Except.error Err.emptyInput ∧
    Err.emptyInput ≠ Err.invalidIteration :=
  ⟨by rfl, by decide⟩

/-- C5 (amended): backward validation runs deterministically in the order
`InvalidRange`, `InvalidZeroPoint`, `InvalidDelay`, `EmptyInput`,
`SizeMismatch`, `InvalidIteration`; in particular, once the first three
checks pass, an empty `X` is reported as `EmptyInput` and a size
disagreement as `SizeMismatch` regardless of `quant_delay` and `iter`. -/
theorem backward_validation_order (dtY dtX : ScalarType) (dys xs : List ℚ)
    (s : ℚ) (zp qmin qmax qd it : ℤ)
    (h1 : qmin ≤ qmax) (h2 : 0 ≤ zp) (h3 : 0 ≤ qd) :
    (xs = [] →
        fake_quantize_per_tensor_affine_backward_cpu ⟨dtY, dys⟩ ⟨dtX, xs⟩ s zp qmin qmax qd it =
          Except.error Err.emptyInput) ∧
    (xs ≠ [] → xs.length ≠ dys.length →
        fake_quantize_per_tensor_affine_backward_cpu ⟨dtY, dys⟩ ⟨dtX, xs⟩ s zp qmin qmax qd it =
          Except.error Err.sizeMismatch) := by
  constructor
  · intro hx
    subst hx
    simp only [fake_quantize_per_tensor_affine_backward_cpu, Tensor.numel]
    rw [if_neg (by omega), if_neg (by omega), if_neg (by omega), if_pos (by simp)]
  · intro hne hlen
    have hl : 0 < xs.length := List.length_pos.mpr hne
    simp only [fake_quantize_per_tensor_affine_backward_cpu, Tensor.numel]
    rw [if_neg (by omega), if_neg (by omega), if_neg (by omega), if_neg (by omega),
      if_pos (by omega)]

/-- Witness for the amended C5: with `quant_delay = 3` and `iter = -2` also
violated, an empty `X` still yields `EmptyInput` and a size disagreement
still yields `SizeMismatch`. -/
theorem backward_validation_order_witness :
    fake_quantize_per_tensor_affine_backward_cpu ⟨ScalarType.Float, [1]⟩
        ⟨ScalarType.Float, []⟩ 1 0 0 255 3 (-2) =
      Except.error Err.emptyInput ∧
    fake_quantize_per_tensor_affine_backward_cpu ⟨ScalarType.Float, [1, 2]⟩
        ⟨ScalarType.Float, [1]⟩ 1 0 0 255 3 (-2) =
      Except.error Err.sizeMismatch :=
  ⟨(backward_validation_order ScalarType.Float ScalarType.Float [1] [] 1 0 0 255 3 (-2)
      (by decide) (by decide) (by decide)).1 rfl,
   (backward_validation_order ScalarType.Float ScalarType.Float [1, 2] [1] 1 0 0 255 3 (-2)
      (by decide) (by decide) (by decide)).2 (by decide) (by decide)⟩

/-- C6: for `scale = 1`, `zero_point = 0`, range `[0, 255]`, no delay:
forward on `X = [0.2, 0.6, -0.4, 300.0]` returns `[0, 1, 0, 255]`, and
backward with `dY = [1, 1, 1, 1]` returns `[1, 1, 1, 0]`; the pre-clamp
quantized values are `[0, 1, 0, 300]` with mask
`[true, true, true, false]`. -/
theorem concrete_scenario :
    Except.map Tensor.data
        (fake_quantize_per_tensor_affine_cpu
          ⟨ScalarType.Float, [1/5, 3/5, -2/5, 300]⟩ 1 0 0 255 0 0) =
      Except.ok [0, 1, 0, 255] ∧
    Except.map Tensor.data
        (fake_quantize_per_tensor_affine_backward_cpu ⟨ScalarType.Float, [1, 1, 1, 1]⟩
          ⟨ScalarType.Float, [1/5, 3/5, -2/5, 300]⟩ 1 0 0 255 0 0) =
      Except.ok [1, 1, 1, 0] ∧
    [(1:ℚ)/5, 3/5, -2/5, 300].map (preClamp 1 0) = [0, 1, 0, 300] ∧
    [(1:ℚ)/5, 3/5, -2/5, 300].map (gradMask 1 0 0 255) = [true, true, true, false] := by
  refine ⟨?_, ?_, ?_, ?_⟩
  · norm_num [fake_quantize_per_tensor_affine_cpu, quantize, Int.floor_eq_iff, Except.map]
  · norm_num [fake_quantize_per_tensor_affine_backward_cpu, backwardStep, gradMask,
      preClamp, Tensor.numel, Int.floor_eq_iff, Except.map]
  · norm_num [preClamp, Int.floor_eq_iff]
  · norm_num [gradMask, preClamp, Int.floor_eq_iff]

/-- C7: with valid parameters (positive `scale`) and `iter > quant_delay`,
the forward transform is idempotent: the elementwise kernel is a projection
(`q(q(x)) = q(x)`), and re-running the forward operation on the data of a
forward result returns that data unchanged. -/
theorem forward_idempotent (xs : List ℚ) (s : ℚ) (zp qmin qmax qd it : ℤ)
    (hs : 0 < s) (h1 : qmin ≤ qmax) (h2 : 0 ≤ zp) (h3 : 0 ≤ qd) (h4 : qd < it) :
    (∀ x, quantize s zp qmin qmax (quantize s zp qmin qmax x) = quantize s zp qmin qmax x) ∧
    ∀ Y : Tensor,
      fake_quantize_per_tensor_affine_cpu ⟨ScalarType.Float, xs⟩ s zp qmin qmax qd it =
        Except.ok Y →
      Except.map Tensor.data
          (fake_quantize_per_tensor_affine_cpu ⟨ScalarType.Float, Y.data⟩ s zp qmin qmax qd it) =
        Except.ok Y.data := by
  have hidem := fun x => quantize_idem s hs.ne' zp qmin qmax h1 x
  refine ⟨hidem, ?_⟩
  intro Y hY
  rw [forward_active xs s zp qmin qmax qd it h1 h2 h3 (Or.inr h4), Except.ok.injEq] at hY
  subst hY
  rw [forward_active _ s zp qmin qmax qd it h1 h2 h3 (Or.inr h4)]
  simp only [Except.map]
  rw [List.map_map]
  exact congrArg Except.ok (List.map_congr_left fun x _ => hidem x)

/-- Witness for C7: requantizing the output of the forward call on
`X = [1/2]` (`scale = 2`, `zero_point = 1`, range `[0, 10]`) leaves it
unchanged. -/
theorem forward_idempotent_witness :
    Except.map Tensor.data
        (fake_quantize_per_tensor_affine_cpu ⟨ScalarType.Float, [0]⟩ 2 1 0 10 0 1) =
      Except.ok [0] :=
  (forward_idempotent [1/2] 2 1 0 10 0 1 (by norm_num) (by decide) (by decide)
      (by decide) (by decide)).2 ⟨ScalarType.Double, [0]⟩
    (by norm_num [fake_quantize_per_tensor_affine_cpu, quantize, Int.floor_eq_iff,
      arithResultDtype])

/-- C8 counterexample: on the suppressed delay path the forward result is a
copy of the input and keeps the input's `Float` dtype, so the output dtype
is not always the wider `Double`. -/
theorem suppressed_output_keeps_float_dtype :
    Except.map Tensor.dtype
        (fake_quantize_per_tensor_affine_cpu ⟨ScalarType.Float, [1]⟩ 1 0 0 255 1 0) =
      Except.ok ScalarType.Float ∧
    ScalarType.Float ≠ ScalarType.Double :=
  ⟨by rfl, by decide⟩

/-- C8 (amended): every successful forward result has the same length as
the input, and on the active path (delay gate open) its element dtype is
the wider `Double` of the intermediate arithmetic; on the suppressed path
the result is a copy keeping the input's dtype. -/
theorem forward_length_and_active_dtype (self : Tensor) (s : ℚ)
    (zp qmin qmax qd it : ℤ) :
    (∀ Y : Tensor,
        fake_quantize_per_tensor_affine_cpu self s zp qmin qmax qd it = Except.ok Y →
        Y.data.length = self.data.length) ∧
    (∀ Y : Tensor, (qd = 0 ∨ qd < it) →
        fake_quantize_per_tensor_affine_cpu self s zp qmin qmax qd it = Except.ok Y →
        Y.dtype = ScalarType.Double) := by
  constructor
  · intro Y h
    unfold fake_quantize_per_tensor_affine_cpu at h
    split_ifs at h
    · rw [Except.ok.injEq] at h
      subst h
      rfl
    · rw [Except.ok.injEq] at h
      subst h
      exact List.length_map _ _
  · intro Y hg h
    unfold fake_quantize_per_tensor_affine_cpu at h
    split_ifs at h
    · exfalso
      omega
    · rw [Except.ok.injEq] at h
      subst h
      rfl

/-- Witness for the amended C8: the active forward call on `X = [1/2]`
returns one element, and its dtype is `Double`. -/
theorem forward_length_and_active_dtype_witness :
    ([(0 : ℚ)]).length = ([(1/2 : ℚ)]).length ∧
    (Tensor.mk ScalarType.Double [(0 : ℚ)]).dtype = ScalarType.Double :=
  ⟨(forward_length_and_active_dtype ⟨ScalarType.Float, [1/2]⟩ 2 1 0 10 0 1).1
      ⟨ScalarType.Double, [0]⟩
      (by norm_num [fake_quantize_per_tensor_affine_cpu, quantize, Int.floor_eq_iff,
        arithResultDtype]),
   (forward_length_and_active_dtype ⟨ScalarType.Float, [1/2]⟩ 2 1 0 10 0 1).2
      ⟨ScalarType.Double, [0]⟩ (Or.inr (by decide))
      (by norm_num [fake_quantize_per_tensor_affine_cpu, quantize, Int.floor_eq_iff,
        arithResultDtype])⟩

/-- C9: the forward operation rejects any input whose element type is not
32-bit `Float`, and this check precedes all parameter validation (the error
is `dtypeNotFloat` even when the parameters are themselves invalid); the
backward operation performs no dtype check: its outcome and data are
independent of the dtypes of `X` and `dY`. -/
theorem forward_dtype_gate_backward_none :
    (∀ (dt : ScalarType) (xs : List ℚ) (s : ℚ) (zp qmin qmax qd it : ℤ),
        dt ≠ ScalarType.Float →
        fake_quantize_per_tensor_affine_cpu ⟨dt, xs⟩ s zp qmin qmax qd it =
          Except.error Err.dtypeNotFloat) ∧
    (∀ (dtY dtX : ScalarType) (dys xs : List ℚ) (s : ℚ) (zp qmin qmax qd it : ℤ),
        Except.map Tensor.data
            (fake_quantize_per_tensor_affine_backward_cpu ⟨dtY, dys⟩ ⟨dtX, xs⟩ s zp qmin qmax qd it) =
          Except.map Tensor.data
            (fake_quantize_per_tensor_affine_backward_cpu ⟨ScalarType.Float, dys⟩
              ⟨ScalarType.Float, xs⟩ s zp qmin qmax qd it)) := by
  constructor
  · intro dt xs s zp qmin qmax qd it h
    simp only [fake_quantize_per_tensor_affine_cpu]
    rw [if_pos (by simpa using h)]
  · intro dtY dtX dys xs s zp qmin qmax qd it
    simp only [fake_quantize_per_tensor_affine_backward_cpu, Tensor.numel]
    split_ifs <;> rfl

/-- Witness for C9: a `Double` input is rejected with the dtype error even
though its range parameters are also invalid (`quant_min > quant_max`). -/
theorem forward_dtype_gate_backward_none_witness :
    fake_quantize_per_tensor_affine_cpu ⟨ScalarType.Double, [1]⟩ 1 0 5 3 0 0 =
      Except.error Err.dtypeNotFloat :=
  forward_dtype_gate_backward_none.1 ScalarType.Double [1] 1 0 5 3 0 0 (by decide)

/-- C10: the active backward path forms `dX[i]` as the arithmetic product
of the `0`/`1` mask with `dY[i]` (matching the finite kernel
`backwardStep`), so a masked-out element yields exactly `0` for finite
`dY[i]`, but an infinite or NaN `dY[i]` at a masked-out element yields NaN
under IEEE-754 multiplication, where the selection formula
`mask[i] ? dY[i] : 0` would yield `0`. -/
theorem mask_product_vs_selection (s : ℚ) (zp qmin qmax : ℤ) (x : ℚ) (dy : FpVal) :
    (∀ q : ℚ, dy = FpVal.fin q →
        backwardStepE s zp qmin qmax x dy = FpVal.fin (backwardStep s zp qmin qmax x q)) ∧
    (gradMask s zp qmin qmax x = false →
      (∀ q : ℚ, dy = FpVal.fin q → backwardStepE s zp qmin qmax x dy = FpVal.fin 0) ∧
      ((dy = FpVal.pinf ∨ dy = FpVal.ninf ∨ dy = FpVal.nan) →
        backwardStepE s zp qmin qmax x dy = FpVal.nan ∧
        backwardStepSelect s zp qmin qmax x dy = FpVal.fin 0)) := by
  refine ⟨?_, fun hm => ⟨?_, fun hd => ⟨?_, ?_⟩⟩⟩
  · rintro q rfl
    by_cases hmask : gradMask s zp qmin qmax x <;>
      simp [backwardStepE, backwardStep, hmask, fpMul]
  · rintro q rfl
    simp [backwardStepE, hm, fpMul]
  · rcases hd with rfl | rfl | rfl <;> simp [backwardStepE, hm, fpMul]
  · rcases hd with rfl | rfl | rfl <;> simp [backwardStepSelect, hm]

/-- Witness for C10: at `x = 300` (mask `0` for range `[0, 255]`) with
`dY = +inf`, the product kernel yields NaN while selection would yield
`0`. -/
theorem mask_product_vs_selection_witness :
    backwardStepE 1 0 0 255 300 FpVal.pinf = FpVal.nan ∧
    backwardStepSelect 1 0 0 255 300 FpVal.pinf = FpVal.fin 0 :=
  ((mask_product_vs_selection 1 0 0 255 300 FpVal.pinf).2
      (by norm_num [gradMask, preClamp, Int.floor_eq_iff])).2 (Or.inl rfl)

end FakeQuant
